import Mathlib

/-!
Verification development for the aws-aiops-monitoring-stack scoring core.

The definitions below are a shallow embedding of the two Lambda handlers:

* src/lambdas/log-analyzer/handler.py   (class LogAnalyzer)
* src/lambdas/anomaly-scorer/handler.py (class AnomalyScorer)

Python floats are modelled as exact rationals; the square root inside
np.std is modelled with Real.sqrt, so quantities downstream of the
standard deviation live in the real numbers.  Strings are modelled over
their character lists; the ASCII fragments of the regular expressions
used by the source are embedded as executable character scanners.
-/

namespace AIOps

/-- Severity tiers shared by both pipelines (LOW < MEDIUM < HIGH < CRITICAL). -/
inductive Sev where
  | LOW
  | MEDIUM
  | HIGH
  | CRITICAL
deriving DecidableEq

/-- Ordinal rank of a severity tier, used to state monotonicity. -/
def Sev.rank : Sev → ℕ
  | .LOW => 0
  | .MEDIUM => 1
  | .HIGH => 2
  | .CRITICAL => 3

/-! ## Log analyzer: error detection (LogAnalyzer._analyze_events, lines 125-133)

The twelve error indicators are literal strings without regex
metacharacters, so re.search(pattern, message, re.IGNORECASE) is a
case-insensitive substring test (ASCII case folding modelled). -/

/-- The ordered list self.error_patterns (handler.py lines 45-58). -/
def error_patterns : List String :=
  ["ERROR", "FATAL", "EXCEPTION", "CRITICAL", "FAILED", "TIMEOUT",
   "OUT OF MEMORY", "CONNECTION REFUSED", "503", "500", "502", "504"]

/-- Whether the first list is an initial segment of the second. -/
def starts_with : List Char → List Char → Bool
  | [], _ => true
  | _ :: _, [] => false
  | a :: as, b :: bs => a == b && starts_with as bs

/-- Whether the first list occurs contiguously inside the second. -/
def has_sublist (needle hay : List Char) : Bool :=
  match hay with
  | [] => needle.isEmpty
  | _ :: t => starts_with needle hay || has_sublist needle t

/-- Case-insensitive substring test: re.search(pattern, message, re.IGNORECASE)
for the literal patterns of error_patterns. -/
def matches_pattern (pat msg : String) : Bool :=
  has_sublist (pat.data.map Char.toUpper) (msg.data.map Char.toUpper)

/-- The first pattern of error_patterns matching the message, if any:
the inner for-loop of _analyze_events, which breaks on the first hit. -/
def first_error_pattern (msg : String) : Option String :=
  error_patterns.find? (fun p => matches_pattern p msg)

/-- One iteration of the error-detection loop: on the first matching
pattern, error_count and that pattern's histogram bucket are bumped and
the loop breaks; otherwise the accumulator is unchanged. -/
def error_step (acc : ℕ × (String → ℕ)) (msg : String) : ℕ × (String → ℕ) :=
  match first_error_pattern msg with
  | some p => (acc.1 + 1, fun q => if q = p then acc.2 q + 1 else acc.2 q)
  | none => acc

/-- error_count and the error_types Counter of _analyze_events
(handler.py lines 125-133). -/
def count_errors (messages : List String) : ℕ × (String → ℕ) :=
  messages.foldl error_step (0, fun _ => 0)

/-! ## Log analyzer: pattern extraction (LogAnalyzer._detect_patterns, lines 162-180)

re.findall is embedded as a left-to-right non-overlapping scan; each
matcher below decides whether one of the three regular expressions of
_detect_patterns matches at a given position, and returns the matched
text together with the position one past its end. -/

/-- ASCII digit test, the digit class of the source regexes. -/
def is_digit_char (c : Char) : Bool := decide ('0' ≤ c) && decide (c ≤ '9')

/-- ASCII word character for the word-boundary assertions of the regexes. -/
def is_word_char (c : Char) : Bool := c.isAlpha || is_digit_char c || c == '_'

/-- ASCII whitespace, for the whitespace class in the timestamp regex. -/
def is_space_char (c : Char) : Bool :=
  c == ' ' || c == '\t' || c == '\n' || c == '\x0b' || c == '\x0c' || c == '\r'

/-- Word boundary immediately before position i (start of text, or the
previous character is not a word character). -/
def boundary_before (s : List Char) (i : ℕ) : Bool :=
  i == 0 || !(is_word_char (s.getD (i - 1) ' '))

/-- Length of the run of digits starting at position i. -/
def digit_run_len (s : List Char) (i : ℕ) : ℕ :=
  ((s.drop i).takeWhile is_digit_char).length

/-- The characters of s from position i (inclusive) to j (exclusive). -/
def slice (s : List Char) (i j : ℕ) : String :=
  String.mk ((s.drop i).take (j - i))

/-- Matcher for the HTTP status regex of _detect_patterns: a word
boundary, one digit 1-5, two digits, and a word boundary. -/
def http_try_at (s : List Char) (i : ℕ) : Option (String × ℕ) :=
  let c0 := s.getD i 'x'
  if boundary_before s i = true ∧ '1' ≤ c0 ∧ c0 ≤ '5' ∧
      is_digit_char (s.getD (i + 1) 'x') = true ∧
      is_digit_char (s.getD (i + 2) 'x') = true ∧
      is_word_char (s.getD (i + 3) ' ') = false then
    some (slice s i (i + 3), i + 3)
  else none

/-- One greedy group of the IPv4 regex: one to three digits followed by
a dot; returns the position after the dot.  The greedy match is
deterministic because a shorter digit take is always followed by a
digit, never by the required dot. -/
def ip_group (s : List Char) (p : ℕ) : Option ℕ :=
  let r := digit_run_len s p
  if 1 ≤ r ∧ r ≤ 3 ∧ s.getD (p + r) 'x' = '.' then some (p + r + 1) else none

/-- Matcher for the dotted-quad IPv4 regex of _detect_patterns. -/
def ip_try_at (s : List Char) (i : ℕ) : Option (String × ℕ) :=
  if boundary_before s i = true then
    match ip_group s i with
    | none => none
    | some p1 =>
      match ip_group s p1 with
      | none => none
      | some p2 =>
        match ip_group s p2 with
        | none => none
        | some p3 =>
          let r := digit_run_len s p3
          if 1 ≤ r ∧ r ≤ 3 ∧ is_word_char (s.getD (p3 + r) ' ') = false then
            some (slice s i (p3 + r), p3 + r)
          else none
  else none

/-- Matcher for the ISO-like timestamp regex of _detect_patterns:
four digits, dash, two digits, dash, two digits, whitespace or T,
then hh colon mm colon ss. -/
def ts_try_at (s : List Char) (i : ℕ) : Option (String × ℕ) :=
  if is_digit_char (s.getD i 'x') = true ∧
      is_digit_char (s.getD (i + 1) 'x') = true ∧
      is_digit_char (s.getD (i + 2) 'x') = true ∧
      is_digit_char (s.getD (i + 3) 'x') = true ∧
      s.getD (i + 4) 'x' = '-' ∧
      is_digit_char (s.getD (i + 5) 'x') = true ∧
      is_digit_char (s.getD (i + 6) 'x') = true ∧
      s.getD (i + 7) 'x' = '-' ∧
      is_digit_char (s.getD (i + 8) 'x') = true ∧
      is_digit_char (s.getD (i + 9) 'x') = true ∧
      (is_space_char (s.getD (i + 10) 'x') = true ∨ s.getD (i + 10) 'x' = 'T') ∧
      is_digit_char (s.getD (i + 11) 'x') = true ∧
      is_digit_char (s.getD (i + 12) 'x') = true ∧
      s.getD (i + 13) 'x' = ':' ∧
      is_digit_char (s.getD (i + 14) 'x') = true ∧
      is_digit_char (s.getD (i + 15) 'x') = true ∧
      s.getD (i + 16) 'x' = ':' ∧
      is_digit_char (s.getD (i + 17) 'x') = true ∧
      is_digit_char (s.getD (i + 18) 'x') = true then
    some (slice s i (i + 19), i + 19)
  else none

/-- Left-to-right non-overlapping scan, the semantics of re.findall: at
each position try the matcher, on success emit the match and resume
after it, otherwise advance one position.  The fuel argument makes the
recursion structural; each step advances the position, so fuel equal to
the text length plus one is always enough. -/
def scan_loop (len : ℕ) (try_at : ℕ → Option (String × ℕ)) : ℕ → ℕ → List String
  | 0, _ => []
  | fuel + 1, i =>
    if len ≤ i then []
    else
      match try_at i with
      | some (m, j) =>
        if i < j then m :: scan_loop len try_at fuel j
        else scan_loop len try_at fuel (i + 1)
      | none => scan_loop len try_at fuel (i + 1)

/-- All matches of one embedded regex in one message, in scan order. -/
def find_all (try_at : List Char → ℕ → Option (String × ℕ)) (msg : String) : List String :=
  scan_loop msg.data.length (try_at msg.data) (msg.data.length + 1) 0

/-- The patterns one message contributes: HTTP status codes, IPv4
addresses and timestamps (the three findall calls of _detect_patterns). -/
def extract_line (msg : String) : Finset String :=
  (find_all http_try_at msg).toFinset ∪ (find_all ip_try_at msg).toFinset ∪
    (find_all ts_try_at msg).toFinset

/-- LogAnalyzer._detect_patterns (handler.py lines 162-180): the set of
distinct structural patterns over the first 100 messages. -/
def detect_patterns (messages : List String) : Finset String :=
  ((messages.take 100).map extract_line).foldl (fun acc s => acc ∪ s) ∅

/-! ## Log analyzer: scoring and severity -/

/-- LogAnalyzer._calculate_anomaly_score (handler.py lines 182-192),
exactly as written in the source: the 70/30-weighted sum is multiplied
by a further 100 before the cap at 100.0. -/
def calculate_anomaly_score (error_count total_events unique_patterns : ℕ) : ℚ :=
  if total_events = 0 then 0
  else
    let error_rate : ℚ := (error_count : ℚ) / (total_events : ℚ)
    let pattern_diversity : ℚ := min ((unique_patterns : ℚ) / 10) 1
    let score := error_rate * 70 + pattern_diversity * 30
    min (score * 100) 100

/-- The anomaly-score formula as the specification states it
(score = min((error_rate x 0.7 + pattern_diversity x 0.3) x 100, 100.0)).
Modelled from the spec for comparison with calculate_anomaly_score. -/
def spec_anomaly_score (error_count total_events unique_patterns : ℕ) : ℚ :=
  if total_events = 0 then 0
  else
    let error_rate : ℚ := (error_count : ℚ) / (total_events : ℚ)
    let pattern_diversity : ℚ := min ((unique_patterns : ℚ) / 10) 1
    min ((error_rate * (7/10) + pattern_diversity * (3/10)) * 100) 100

/-- LogAnalyzer._determine_severity (handler.py lines 194-203). -/
def determine_severity (anomaly_score : ℚ) (error_count : ℕ) : Sev :=
  if 70 ≤ anomaly_score ∨ 100 < error_count then .CRITICAL
  else if 40 ≤ anomaly_score ∨ 20 < error_count then .HIGH
  else if 20 ≤ anomaly_score ∨ 5 < error_count then .MEDIUM
  else .LOW

/-- The analysis record built by _analyze_events (handler.py lines 145-153). -/
structure LogAnalysis where
  error_count : ℕ
  error_rate : ℚ
  error_types : String → ℕ
  unique_patterns : ℕ
  avg_message_length : ℚ
  anomaly_score : ℚ
  severity : Sev

/-- The score call as it is actually written at handler.py line 143:
the set returned by _detect_patterns is passed where
_calculate_anomaly_score annotates unique_patterns as int.  Unless the
total_events == 0 early return at line 184 fires first, the body then
evaluates unique_patterns / 10 on a set at line 188 and raises
TypeError, whatever the error count and the set are. -/
def calculate_anomaly_score_set_call (error_count total_events : ℕ)
    (unique_patterns : Finset String) : Except String ℚ :=
  if total_events = 0 then .ok 0
  else .error "TypeError: set divided by int"

/-- LogAnalyzer._analyze_events as it actually executes (handler.py
lines 120-160): the error-detection loop (lines 125-133) and the
pattern scan (line 136) run, and then the call at line 143 raises
TypeError for every non-empty batch, so the analysis record at lines
145-153 is never built; only an empty message list reaches it.  The
exception propagates to analyze_log_group (lines 113-118), which
returns an error record in place of an analysis. -/
def analyze_events_run (messages : List String) : Except String LogAnalysis :=
  match calculate_anomaly_score_set_call (count_errors messages).1 messages.length
      (detect_patterns messages) with
  | .error e => .error e
  | .ok score =>
    .ok { error_count := (count_errors messages).1
          error_rate := ((count_errors messages).1 : ℚ) / (messages.length : ℚ)
          error_types := (count_errors messages).2
          unique_patterns := (detect_patterns messages).card
          avg_message_length :=
            ((messages.map (fun m => (m.length : ℚ))).sum) / (messages.length : ℚ)
          anomaly_score := score
          severity := determine_severity score (count_errors messages).1 }

/-- The analysis record of handler.py lines 145-153 as the code is
typed: the record _analyze_events is written to produce, with the
line-143 argument repaired to the cardinality that the signature
unique_patterns: int and the use len(unique_patterns) at line 149 call
for.  The actual execution path is analyze_events_run, which raises
before building this record for any non-empty batch; this repaired
model is what the pipeline-level code-bug theorems are stated
against. -/
def analyze_events (messages : List String) : LogAnalysis :=
  let ec := (count_errors messages).1
  let score := calculate_anomaly_score ec messages.length (detect_patterns messages).card
  { error_count := ec
    error_rate := (ec : ℚ) / (messages.length : ℚ)
    error_types := (count_errors messages).2
    unique_patterns := (detect_patterns messages).card
    avg_message_length := ((messages.map (fun m => (m.length : ℚ))).sum) / (messages.length : ℚ)
    anomaly_score := score
    severity := determine_severity score ec }

/-! ## Anomaly scorer: statistics helpers (AnomalyScorer, handler.py) -/

/-- np.mean over a list of values (0 for the empty list, matching the
convention that division by zero yields zero in this embedding). -/
def listMean (l : List ℚ) : ℚ := l.sum / (l.length : ℚ)

/-- np.std squared, the population variance used at handler.py line 137. -/
def listVar (l : List ℚ) : ℚ :=
  ((l.map (fun x => (x - listMean l) ^ 2)).sum) / (l.length : ℚ)

/-- scipy.stats.percentileofscore with its default kind, the call at
handler.py line 147: mean percentage rank of the score, counting half a
step extra when the score itself occurs in the data. -/
def percentileofscore (a : List ℚ) (x : ℚ) : ℚ :=
  let left := (a.filter (fun v => v < x)).length
  let right := (a.filter (fun v => v ≤ x)).length
  let tie : ℕ := if left < right then 1 else 0
  ((left : ℚ) + (right : ℚ) + (tie : ℚ)) * 50 / (a.length : ℚ)

/-! ## Anomaly scorer: trend analysis (AnomalyScorer._analyze_trend, lines 180-195)

np.polyfit(x, values, 1)[0] with x = 0..n-1 is the ordinary
least-squares slope; it is embedded through the normal-equation closed
form below, and proved to minimise the squared error in the theorem for
the trend-estimator claim. -/

/-- Sum of the index positions 0..n-1. -/
def sum_x (n : ℕ) : ℚ := ∑ i ∈ Finset.range n, (i : ℚ)

/-- Sum of the squared index positions. -/
def sum_x2 (n : ℕ) : ℚ := ∑ i ∈ Finset.range n, (i : ℚ) ^ 2

/-- Sum of the values, indexed form. -/
def sum_y (vs : List ℚ) : ℚ := ∑ i ∈ Finset.range vs.length, vs.getD i 0

/-- Sum of index times value. -/
def sum_xy (vs : List ℚ) : ℚ := ∑ i ∈ Finset.range vs.length, (i : ℚ) * vs.getD i 0

/-- The least-squares slope returned by np.polyfit(x, values, 1)[0]. -/
def polyfit_slope (vs : List ℚ) : ℚ :=
  ((vs.length : ℚ) * sum_xy vs - sum_x vs.length * sum_y vs) /
    ((vs.length : ℚ) * sum_x2 vs.length - (sum_x vs.length) ^ 2)

/-- The least-squares intercept np.polyfit(x, values, 1)[1]. -/
def polyfit_intercept (vs : List ℚ) : ℚ :=
  (sum_y vs - polyfit_slope vs * sum_x vs.length) / (vs.length : ℚ)

/-- Total squared error of the affine fit m * i + b to the values. -/
def sq_error (vs : List ℚ) (m b : ℚ) : ℚ :=
  ∑ i ∈ Finset.range vs.length, (vs.getD i 0 - (m * (i : ℚ) + b)) ^ 2

/-- The relative change |slope| / (mean + 0.001) of _analyze_trend. -/
def relative_change (vs : List ℚ) : ℚ :=
  |polyfit_slope vs| / (listMean vs + 1/1000)

/-- AnomalyScorer._analyze_trend (handler.py lines 180-195). -/
def analyze_trend (vs : List ℚ) : String :=
  if vs.length < 3 then "stable"
  else if 1/10 < relative_change vs then
    if 0 < polyfit_slope vs then "increasing" else "decreasing"
  else "stable"

/-! ## Anomaly scorer: composite score (AnomalyScorer._calculate_score, lines 115-178) -/

/-- Severity from the numeric score, the threshold table at handler.py
lines 160-168. -/
noncomputable def severity_from_score (s : ℝ) : Sev :=
  open Classical in
  if 0.7 ≤ s then .CRITICAL
  else if 0.5 ≤ s then .HIGH
  else if 0.3 ≤ s then .MEDIUM
  else .LOW

/-- The 80 percent split index int(len(values) * 0.8) at line 132. -/
def split_idx (values : List ℚ) : ℕ := 4 * values.length / 5

/-- The baseline population values[:split_idx]. -/
def baseline_of (values : List ℚ) : List ℚ := values.take (split_idx values)

/-- The recent population values[split_idx:]. -/
def recent_of (values : List ℚ) : List ℚ := values.drop (split_idx values)

/-- baseline_mean at line 136. -/
def baseline_mean (values : List ℚ) : ℚ := listMean (baseline_of values)

/-- baseline_std at line 137 (np.std, the population standard deviation). -/
noncomputable def baseline_std (values : List ℚ) : ℝ :=
  Real.sqrt ((listVar (baseline_of values) : ℝ))

/-- The epsilon substitution at lines 140-141: a zero standard deviation
is replaced by 0.001. -/
noncomputable def effective_std (values : List ℚ) : ℝ :=
  open Classical in
  if baseline_std values = 0 then 1/1000 else baseline_std values

/-- current_value, the last element of the sorted value list (line 129). -/
def current_value (values : List ℚ) : ℚ := values.getLastD 0

/-- z_score at line 144. -/
noncomputable def z_score (values : List ℚ) : ℝ :=
  |((current_value values : ℝ)) - ((baseline_mean values : ℝ))| / effective_std values

/-- percentile at line 147. -/
def percentile (values : List ℚ) : ℚ :=
  percentileofscore (baseline_of values) (current_value values)

/-- trend at line 150: _analyze_trend over the recent population. -/
def trend_of (values : List ℚ) : String := analyze_trend (recent_of values)

/-- z_score_normalized at line 153. -/
noncomputable def z_score_normalized (values : List ℚ) : ℝ :=
  min (z_score values / 3) 1

/-- percentile_score at line 154. -/
def percentile_score (values : List ℚ) : ℚ := |percentile values - 50| / 50

/-- trend_score at line 155. -/
def trend_score (values : List ℚ) : ℚ :=
  if trend_of values = "increasing" ∨ trend_of values = "decreasing" then 3/10 else 0

/-- The composite anomaly score at line 158. -/
noncomputable def anomaly_score_of (values : List ℚ) : ℝ :=
  z_score_normalized values * 0.5 + ((percentile_score values : ℝ)) * 0.3 +
    ((trend_score values : ℝ)) * 0.2

/-- The record returned by _calculate_score. -/
structure ScoreResult where
  score : ℝ
  severity : Sev
  baseline_mean : ℚ
  baseline_std : ℝ
  z_score : ℝ
  percentile : ℚ
  trend : String

/-- AnomalyScorer._calculate_score (handler.py lines 115-178). -/
noncomputable def calculate_score (values : List ℚ) : ScoreResult :=
  if values = [] then
    { score := 0, severity := .LOW, baseline_mean := 0, baseline_std := 0,
      z_score := 0, percentile := 50, trend := "stable" }
  else
    { score := anomaly_score_of values
      severity := severity_from_score (anomaly_score_of values)
      baseline_mean := baseline_mean values
      baseline_std := baseline_std values
      z_score := z_score values
      percentile := percentile values
      trend := trend_of values }

/-- self.min_data_points (handler.py line 34). -/
def min_data_points : ℕ := 10

/-- Outcome of score_metric on a fetched datapoint list: either the
insufficient-data sentinel (anomaly_score 0.0, status insufficient_data)
or a full score computation. -/
inductive ScoreStatus where
  | insufficient (data_points : ℕ)
  | scored (result : ScoreResult) (data_points : ℕ)

/-- The anomaly_score field of the returned record: 0.0 for the
insufficient-data sentinel, otherwise the computed composite score. -/
noncomputable def ScoreStatus.anomaly_score : ScoreStatus → ℝ
  | .insufficient _ => 0
  | .scored r _ => r.score

/-- The status field: the sentinel carries the string insufficient_data;
the full result has no status key. -/
def ScoreStatus.status : ScoreStatus → Option String
  | .insufficient _ => some "insufficient_data"
  | .scored _ _ => none

/-- The pure core of AnomalyScorer.score_metric (handler.py lines 66-101)
on the fetched datapoints, each a timestamp paired with a value: the
minimum-population gate, the stable sort by timestamp, and the full
score computation. -/
noncomputable def score_metric (datapoints : List (ℚ × ℚ)) : ScoreStatus :=
  if datapoints.length < min_data_points then .insufficient datapoints.length
  else
    let sorted := datapoints.mergeSort (fun a b => a.1 ≤ b.1)
    let values := sorted.map Prod.snd
    .scored (calculate_score values) datapoints.length

/-- A concrete series attaining the maximal composite score: twelve
baseline values of mean 1 and variance 1, and a rising recent
population ending three standard deviations above the baseline mean. -/
def example_series : List ℚ := [0, 0, 0, 0, 0, 0, 2, 2, 2, 2, 2, 2, 2, 3, 4]

/-! ## Helper lemmas -/

theorem count_errors_append (msgs : List String) (msg : String) :
    count_errors (msgs ++ [msg]) = error_step (count_errors msgs) msg := by
  simp [count_errors, List.foldl_append]

theorem error_patterns_nodup : error_patterns.Nodup := by decide

theorem sum_map_bump (p : String) :
    ∀ (l : List String), l.Nodup → p ∈ l → ∀ f : String → ℕ,
      (l.map (fun q => if q = p then f q + 1 else f q)).sum = (l.map f).sum + 1 := by
  intro l
  induction l with
  | nil => intro _ hp; cases hp
  | cons a t ih =>
    intro hnd hp f
    rcases List.mem_cons.mp hp with rfl | hpt
    · have hnt : p ∉ t := (List.nodup_cons.mp hnd).1
      have hmap : t.map (fun q => if q = p then f q + 1 else f q) = t.map f := by
        apply List.map_congr_left
        intro q hq
        rw [if_neg]
        intro hqp
        exact hnt (hqp ▸ hq)
      simp only [List.map_cons, List.sum_cons, if_true]
      rw [hmap]
      omega
    · have hap : a ≠ p := by
        rintro rfl
        exact (List.nodup_cons.mp hnd).1 hpt
      simp only [List.map_cons, List.sum_cons, if_neg hap]
      rw [ih (List.nodup_cons.mp hnd).2 hpt f]
      omega

theorem hist_sum (msgs : List String) :
    (error_patterns.map (count_errors msgs).2).sum = (count_errors msgs).1 := by
  induction msgs using List.reverseRecOn with
  | nil => rfl
  | append_singleton msgs msg ih =>
    rw [count_errors_append]
    cases h : first_error_pattern msg with
    | none => simpa [error_step, h] using ih
    | some p =>
      have hp : p ∈ error_patterns := List.mem_of_find?_eq_some h
      simp only [error_step, h]
      rw [sum_map_bump p error_patterns error_patterns_nodup hp]
      omega

theorem count_le_length (msgs : List String) : (count_errors msgs).1 ≤ msgs.length := by
  induction msgs using List.reverseRecOn with
  | nil => simp [count_errors]
  | append_singleton msgs msg ih =>
    rw [count_errors_append]
    cases h : first_error_pattern msg <;>
      simp only [error_step, h, List.length_append, List.length_cons, List.length_nil] <;>
      omega

theorem calculate_anomaly_score_saturates (ec n k : ℕ) (hn : n ≠ 0) (hk : 1 ≤ k) :
    calculate_anomaly_score ec n k = 100 := by
  unfold calculate_anomaly_score
  rw [if_neg hn]
  have her : (0 : ℚ) ≤ (ec : ℚ) / (n : ℚ) := by positivity
  have hpd : (1 : ℚ) / 10 ≤ min ((k : ℚ) / 10) 1 := by
    apply le_min
    · have : (1 : ℚ) ≤ (k : ℚ) := by exact_mod_cast hk
      linarith
    · norm_num
  apply min_eq_right
  set pd := min ((k : ℚ) / 10) 1
  nlinarith [her, hpd]

theorem filter_lt_length_le (l : List ℚ) (x : ℚ) :
    (l.filter (fun v => v < x)).length ≤ (l.filter (fun v => v ≤ x)).length := by
  induction l with
  | nil => simp
  | cons a t ih =>
    simp only [List.filter_cons]
    by_cases h1 : a < x
    · rw [if_pos (by simpa using h1), if_pos (by simpa using h1.le)]
      simpa using ih
    · rw [if_neg (by simpa using h1)]
      by_cases h2 : a ≤ x
      · rw [if_pos (by simpa using h2)]
        simp only [List.length_cons]
        omega
      · rw [if_neg (by simpa using h2)]
        exact ih

theorem percentileofscore_nonneg (a : List ℚ) (x : ℚ) : 0 ≤ percentileofscore a x := by
  unfold percentileofscore
  positivity

theorem percentileofscore_le_100 (a : List ℚ) (x : ℚ) (h : a ≠ []) :
    percentileofscore a x ≤ 100 := by
  unfold percentileofscore
  have hlen : 0 < a.length := List.length_pos.mpr h
  have hLR := filter_lt_length_le a x
  have hR : (a.filter (fun v => v ≤ x)).length ≤ a.length := List.length_filter_le _ _
  have hkey : (a.filter (fun v => v < x)).length + (a.filter (fun v => v ≤ x)).length +
      (if (a.filter (fun v => v < x)).length < (a.filter (fun v => v ≤ x)).length then 1 else 0)
        ≤ 2 * a.length := by
    split_ifs <;> omega
  rw [div_le_iff₀ (by exact_mod_cast hlen)]
  have hkey' : ((a.filter (fun v => v < x)).length : ℚ) + ((a.filter (fun v => v ≤ x)).length : ℚ) +
      (((if (a.filter (fun v => v < x)).length < (a.filter (fun v => v ≤ x)).length then 1 else 0 : ℕ)) : ℚ)
        ≤ 2 * (a.length : ℚ) := by exact_mod_cast hkey
  linarith

/-! ## Claims -/

/-- C1: the claim states that the log anomaly score equals
min((error_rate x 0.7 + pattern_diversity x 0.3) x 100, 100.0), and that
the example batch of 100 lines with 30 error lines and 12 unique
patterns yields score 51.0 and severity HIGH.  The source instead
multiplies the already 0-100-scaled weighted sum (error_rate x 70 +
pattern_diversity x 30) by a further 100 before capping, so the example
batch evaluates to score 100.0 and severity CRITICAL, while the spec
formula indeed yields 51.0 and HIGH. -/
theorem C1_example_code_evaluation :
    calculate_anomaly_score 30 100 12 = 100 ∧
    determine_severity (calculate_anomaly_score 30 100 12) 30 = Sev.CRITICAL ∧
    spec_anomaly_score 30 100 12 = 51 ∧
    determine_severity (spec_anomaly_score 30 100 12) 30 = Sev.HIGH := by
  have h1 : calculate_anomaly_score 30 100 12 = 100 := by
    norm_num [calculate_anomaly_score]
  have h2 : spec_anomaly_score 30 100 12 = 51 := by
    norm_num [spec_anomaly_score]
  refine ⟨h1, ?_, h2, ?_⟩
  · rw [h1]; decide
  · rw [h2]; decide

theorem analyze_events_run_raises (msgs : List String) (hne : msgs ≠ []) :
    analyze_events_run msgs = .error "TypeError: set divided by int" := by
  unfold analyze_events_run calculate_anomaly_score_set_call
  rw [if_neg (fun h => hne (List.length_eq_zero.mp h))]

/-- C2: the claim that a non-empty batch with at least one extracted
pattern is assigned anomaly_score 100.0 and severity CRITICAL describes
the scoring and severity functions under their own annotations, but the
analyzer as executed never assigns either: the call at handler.py line
143 passes the pattern set where _calculate_anomaly_score annotates
int, so _analyze_events raises TypeError for every non-empty batch and
analyze_log_group returns an error record (first conjunct).  Under the
annotated, repaired call, the saturation the claim describes does hold:
score exactly 100 and severity CRITICAL whenever at least one pattern
was extracted, regardless of error count (second conjunct). -/
theorem C2_pattern_saturation :
    (∀ msgs : List String, msgs ≠ [] →
      analyze_events_run msgs = .error "TypeError: set divided by int") ∧
    (∀ msgs : List String, msgs ≠ [] → 1 ≤ (detect_patterns msgs).card →
      (analyze_events msgs).anomaly_score = 100 ∧
      (analyze_events msgs).severity = Sev.CRITICAL) := by
  refine ⟨analyze_events_run_raises, ?_⟩
  intro msgs hne hp
  have hn : msgs.length ≠ 0 := fun h => hne (List.length_eq_zero.mp h)
  have hs : calculate_anomaly_score (count_errors msgs).1 msgs.length
      (detect_patterns msgs).card = 100 :=
    calculate_anomaly_score_saturates _ _ _ hn hp
  constructor
  · simpa [analyze_events] using hs
  · have : (analyze_events msgs).severity =
        determine_severity (calculate_anomaly_score (count_errors msgs).1 msgs.length
          (detect_patterns msgs).card) (count_errors msgs).1 := rfl
    rw [this, hs]
    unfold determine_severity
    rw [if_pos (Or.inl (by norm_num))]

/-- Witness for C2 at a concrete one-line batch containing the HTTP
status token 200: the executed path raises, the repaired record
saturates. -/
theorem C2_pattern_saturation_witness :
    analyze_events_run ["status 200 ok"] = .error "TypeError: set divided by int" ∧
    (analyze_events ["status 200 ok"]).anomaly_score = 100 ∧
    (analyze_events ["status 200 ok"]).severity = Sev.CRITICAL :=
  ⟨C2_pattern_saturation.1 ["status 200 ok"] (by decide),
   (C2_pattern_saturation.2 ["status 200 ok"] (by decide) (by decide)).1,
   (C2_pattern_saturation.2 ["status 200 ok"] (by decide) (by decide)).2⟩

/-- C5 counterexample: the trend denominator mean(values) + 0.001 can be
exactly zero for a sequence of three or more values, namely when the
values average to -0.001. -/
theorem C5_denominator_counterexample :
    ¬ (∀ vs : List ℚ, 3 ≤ vs.length → listMean vs + 1/1000 ≠ 0) := by
  intro h
  exact h [-(1/250), 0, 0, 0] (by norm_num) (by norm_num [listMean])

/-- C5 amended: for every sequence of three or more nonnegative values,
the denominator mean(values) + 0.001 of relative_change is positive and
hence nonzero, so the relative-change division never divides by zero. -/
theorem C5_denominator_nonzero_on_nonneg (vs : List ℚ) (hlen : 3 ≤ vs.length)
    (hnn : ∀ x ∈ vs, 0 ≤ x) : listMean vs + 1/1000 ≠ 0 := by
  have hmean : 0 ≤ listMean vs := by
    unfold listMean
    exact div_nonneg (List.sum_nonneg hnn) (by positivity)
  intro h
  linarith

/-- Witness for C5 on a concrete nonnegative sequence. -/
theorem C5_denominator_nonzero_on_nonneg_witness :
    listMean [1, 2, 3] + 1/1000 ≠ 0 :=
  C5_denominator_nonzero_on_nonneg [1, 2, 3] (by norm_num)
    (by intro x hx; fin_cases hx <;> norm_num)

/-- C7: a line matching some error pattern increments error_count by
exactly one and increments only the bucket of the first matching pattern
in list order; a non-matching line changes nothing; a line containing
both ERROR and 500 is credited to the ERROR bucket; and error_count
never exceeds the number of lines. -/
theorem C7_first_match_wins :
    (∀ (msgs : List String) (msg p : String), first_error_pattern msg = some p →
      (count_errors (msgs ++ [msg])).1 = (count_errors msgs).1 + 1 ∧
      (count_errors (msgs ++ [msg])).2 p = (count_errors msgs).2 p + 1 ∧
      (∀ q, q ≠ p → (count_errors (msgs ++ [msg])).2 q = (count_errors msgs).2 q)) ∧
    (∀ (msgs : List String) (msg : String), first_error_pattern msg = none →
      count_errors (msgs ++ [msg]) = count_errors msgs) ∧
    first_error_pattern "GET /api 500 ERROR" = some "ERROR" ∧
    matches_pattern "500" "GET /api 500 ERROR" = true ∧
    (∀ msgs : List String, (count_errors msgs).1 ≤ msgs.length) := by
  refine ⟨?_, ?_, by decide, by decide, count_le_length⟩
  · intro msgs msg p h
    rw [count_errors_append]
    unfold error_step
    rw [h]
    exact ⟨rfl, by simp, fun q hq => by simp [if_neg hq]⟩
  · intro msgs msg h
    rw [count_errors_append]
    simp [error_step, h]

/-- Witness for C7 on a line matching both ERROR and 500. -/
theorem C7_first_match_wins_witness :
    (count_errors ([] ++ ["GET /api 500 ERROR"])).1 = (count_errors []).1 + 1 ∧
    (count_errors ([] ++ ["GET /api 500 ERROR"])).2 "ERROR" = (count_errors []).2 "ERROR" + 1 ∧
    (count_errors ([] ++ ["GET /api 500 ERROR"])).2 "500" = (count_errors []).2 "500" :=
  ⟨(C7_first_match_wins.1 [] _ "ERROR" C7_first_match_wins.2.2.1).1,
   (C7_first_match_wins.1 [] _ "ERROR" C7_first_match_wins.2.2.1).2.1,
   (C7_first_match_wins.1 [] _ "ERROR" C7_first_match_wins.2.2.1).2.2 "500" (by decide)⟩

/-- C9: the pattern extractor's output depends only on the first 100
lines of its input: extraction over the full message list equals
extraction over the first 100 messages. -/
theorem C9_pattern_sampling_bound (messages : List String) :
    detect_patterns messages = detect_patterns (messages.take 100) := by
  simp [detect_patterns, List.take_take]

/-- C10: the claim quantifies over analysis results produced for
non-empty batches, but the source produces none: _analyze_events raises
TypeError at handler.py line 143 before the record at lines 145-153 is
built (first conjunct).  The error-detection loop that does execute
already satisfies the histogram invariant: its bucket counts over the
twelve patterns sum to its error count, which never exceeds the line
count (second conjunct).  Under the annotated, repaired call the full
record satisfies everything the claim states: histogram counts sum to
error_count, and error_rate is error_count over the line count, inside
the unit interval (third conjunct). -/
theorem C10_histogram_invariants :
    (∀ msgs : List String, msgs ≠ [] →
      analyze_events_run msgs = .error "TypeError: set divided by int") ∧
    (∀ msgs : List String,
      (error_patterns.map (count_errors msgs).2).sum = (count_errors msgs).1 ∧
      (count_errors msgs).1 ≤ msgs.length) ∧
    (∀ msgs : List String, msgs ≠ [] →
      (error_patterns.map (analyze_events msgs).error_types).sum =
        (analyze_events msgs).error_count ∧
      (analyze_events msgs).error_rate =
        ((analyze_events msgs).error_count : ℚ) / (msgs.length : ℚ) ∧
      0 ≤ (analyze_events msgs).error_rate ∧
      (analyze_events msgs).error_rate ≤ 1) := by
  refine ⟨analyze_events_run_raises, fun msgs => ⟨hist_sum msgs, count_le_length msgs⟩, ?_⟩
  intro msgs hne
  have hlen : 0 < msgs.length := List.length_pos.mpr hne
  have hec : (count_errors msgs).1 ≤ msgs.length := count_le_length msgs
  refine ⟨hist_sum msgs, rfl, ?_, ?_⟩
  · have : (analyze_events msgs).error_rate =
        ((count_errors msgs).1 : ℚ) / (msgs.length : ℚ) := rfl
    rw [this]
    positivity
  · have : (analyze_events msgs).error_rate =
        ((count_errors msgs).1 : ℚ) / (msgs.length : ℚ) := rfl
    rw [this]
    rw [div_le_one (by exact_mod_cast hlen)]
    exact_mod_cast hec

/-- Witness for C10 on a concrete one-line batch: the executed path
raises, the loop invariant and the repaired-record invariants hold. -/
theorem C10_histogram_invariants_witness :
    analyze_events_run ["ERROR"] = .error "TypeError: set divided by int" ∧
    (error_patterns.map (count_errors ["ERROR"]).2).sum = (count_errors ["ERROR"]).1 ∧
    (error_patterns.map (analyze_events ["ERROR"]).error_types).sum =
      (analyze_events ["ERROR"]).error_count ∧
    0 ≤ (analyze_events ["ERROR"]).error_rate ∧
    (analyze_events ["ERROR"]).error_rate ≤ 1 :=
  ⟨C10_histogram_invariants.1 ["ERROR"] (by decide),
   (C10_histogram_invariants.2.1 ["ERROR"]).1,
   (C10_histogram_invariants.2.2 ["ERROR"] (by decide)).1,
   (C10_histogram_invariants.2.2 ["ERROR"] (by decide)).2.2.1,
   (C10_histogram_invariants.2.2 ["ERROR"] (by decide)).2.2.2⟩

/-- C4: a datapoint list one short of min_data_points yields the
insufficient_data sentinel with anomaly score 0.0 rather than an error,
while a list of exactly min_data_points datapoints goes through the full
score computation over the timestamp-sorted values. -/
theorem C4_min_data_gate :
    (∀ dps : List (ℚ × ℚ), dps.length = min_data_points - 1 →
      (score_metric dps).status = some "insufficient_data" ∧
      (score_metric dps).anomaly_score = 0) ∧
    (∀ dps : List (ℚ × ℚ), dps.length = min_data_points →
      score_metric dps =
        .scored (calculate_score ((dps.mergeSort (fun a b => a.1 ≤ b.1)).map Prod.snd))
          min_data_points) := by
  constructor
  · intro dps h
    unfold score_metric
    rw [if_pos (by rw [h]; decide)]
    exact ⟨rfl, rfl⟩
  · intro dps h
    unfold score_metric
    rw [if_neg (by omega), h]

/-- Witness for C4 at concrete lists of 9 and 10 datapoints. -/
theorem C4_min_data_gate_witness :
    (score_metric (List.replicate 9 ((0 : ℚ), (0 : ℚ)))).status = some "insufficient_data" ∧
    (score_metric (List.replicate 9 ((0 : ℚ), (0 : ℚ)))).anomaly_score = 0 ∧
    score_metric (List.replicate 10 ((0 : ℚ), (0 : ℚ))) =
      .scored (calculate_score (((List.replicate 10 ((0 : ℚ), (0 : ℚ))).mergeSort
        (fun a b => a.1 ≤ b.1)).map Prod.snd)) min_data_points :=
  ⟨(C4_min_data_gate.1 _ (by decide)).1, (C4_min_data_gate.1 _ (by decide)).2,
   C4_min_data_gate.2 _ (by decide)⟩

theorem baseline_nonempty (values : List ℚ) (h : min_data_points ≤ values.length) :
    baseline_of values ≠ [] := by
  have hlen : (baseline_of values).length = min (split_idx values) values.length := by
    unfold baseline_of
    exact List.length_take _ _
  have hs : 8 ≤ split_idx values := by
    unfold split_idx
    unfold min_data_points at h
    omega
  have hpos : 0 < (baseline_of values).length := by
    rw [hlen]
    unfold min_data_points at h
    omega
  exact List.length_pos.mp hpos

theorem effective_std_pos (values : List ℚ) : 0 < effective_std values := by
  unfold effective_std
  split_ifs with h
  · norm_num
  · have h0 : 0 ≤ baseline_std values := by
      unfold baseline_std
      exact Real.sqrt_nonneg _
    exact lt_of_le_of_ne h0 (Ne.symm h)

theorem z_score_normalized_bounds (values : List ℚ) :
    0 ≤ z_score_normalized values ∧ z_score_normalized values ≤ 1 := by
  have hz : 0 ≤ z_score values :=
    div_nonneg (abs_nonneg _) (effective_std_pos values).le
  constructor
  · apply le_min
    · positivity
    · norm_num
  · exact min_le_right _ _

theorem percentile_score_bounds (values : List ℚ) (hb : baseline_of values ≠ []) :
    0 ≤ percentile_score values ∧ percentile_score values ≤ 1 := by
  have h0 : 0 ≤ percentile values := percentileofscore_nonneg _ _
  have h100 : percentile values ≤ 100 := percentileofscore_le_100 _ _ hb
  constructor
  · unfold percentile_score
    positivity
  · unfold percentile_score
    rw [div_le_one (by norm_num)]
    rw [abs_le]
    constructor <;> linarith

theorem trend_score_bounds (values : List ℚ) :
    0 ≤ trend_score values ∧ trend_score values ≤ 3/10 := by
  unfold trend_score
  split_ifs <;> norm_num

theorem score_attained : (calculate_score example_series).score = 0.86 := by
  have hne : example_series ≠ [] := by decide
  have hsc : (calculate_score example_series).score = anomaly_score_of example_series := by
    unfold calculate_score
    rw [if_neg hne]
  have hbase : baseline_of example_series = [0, 0, 0, 0, 0, 0, 2, 2, 2, 2, 2, 2] := by decide
  have hrec : recent_of example_series = [2, 3, 4] := by decide
  have hvar : listVar (baseline_of example_series) = 1 := by
    rw [hbase]
    norm_num [listVar, listMean]
  have hstd : baseline_std example_series = 1 := by
    unfold baseline_std
    rw [hvar]
    simp
  have heff : effective_std example_series = 1 := by
    unfold effective_std
    rw [hstd]
    norm_num
  have hcv : current_value example_series = 4 := by decide
  have hmean : baseline_mean example_series = 1 := by
    unfold baseline_mean
    rw [hbase]
    norm_num [listMean]
  have hz : z_score example_series = 3 := by
    unfold z_score
    rw [heff, hcv, hmean]
    push_cast
    rw [div_one, abs_of_nonneg (by norm_num)]
    norm_num
  have hzn : z_score_normalized example_series = 1 := by
    unfold z_score_normalized
    rw [hz]
    norm_num
  have hperc : percentile example_series = 100 := by
    unfold percentile
    rw [hbase, hcv]
    norm_num [percentileofscore, List.filter]
  have hps : percentile_score example_series = 1 := by
    unfold percentile_score
    rw [hperc]
    norm_num
  have htr : trend_of example_series = "increasing" := by
    unfold trend_of
    rw [hrec]
    norm_num [analyze_trend, relative_change, polyfit_slope, listMean, sum_xy, sum_x, sum_x2,
      sum_y, Finset.sum_range_succ]
  have hts : trend_score example_series = 3/10 := by
    unfold trend_score
    rw [htr]
    norm_num
  rw [hsc]
  unfold anomaly_score_of
  rw [hzn, hps, hts]
  push_cast
  norm_num

/-- C3: for every series passing the minimum-population gate, the
composite score lies in the interval from 0 to 0.86, and 0.86 is
attained exactly at a concrete series, so it is the exact maximum. -/
theorem C3_score_range :
    (∀ values : List ℚ, min_data_points ≤ values.length →
      0 ≤ (calculate_score values).score ∧ (calculate_score values).score ≤ 0.86) ∧
    (∃ values : List ℚ, min_data_points ≤ values.length ∧
      (calculate_score values).score = 0.86) := by
  constructor
  · intro values hlen
    have hne : values ≠ [] := by
      intro h
      rw [h] at hlen
      exact absurd hlen (by decide)
    have hscore : (calculate_score values).score = anomaly_score_of values := by
      unfold calculate_score
      rw [if_neg hne]
    rw [hscore]
    have hb : baseline_of values ≠ [] := baseline_nonempty values hlen
    obtain ⟨hz0, hz1⟩ := z_score_normalized_bounds values
    obtain ⟨hp0, hp1⟩ := percentile_score_bounds values hb
    obtain ⟨ht0, ht1⟩ := trend_score_bounds values
    have hp0' : (0 : ℝ) ≤ ((percentile_score values : ℝ)) := by exact_mod_cast hp0
    have hp1' : ((percentile_score values : ℝ)) ≤ 1 := by exact_mod_cast hp1
    have ht0' : (0 : ℝ) ≤ ((trend_score values : ℝ)) := by exact_mod_cast ht0
    have ht1' : ((trend_score values : ℝ)) ≤ 3/10 := by
      rw [show (3/10 : ℝ) = ((3/10 : ℚ) : ℝ) by norm_num]
      exact_mod_cast ht1
    unfold anomaly_score_of
    constructor
    · nlinarith
    · nlinarith
  · exact ⟨example_series, by decide, score_attained⟩

/-- Witness for C3 at the concrete maximising series. -/
theorem C3_score_range_witness :
    0 ≤ (calculate_score example_series).score ∧
    (calculate_score example_series).score ≤ 0.86 :=
  C3_score_range.1 example_series (by decide)

/-- C8: both severity classifiers are monotone non-decreasing: a larger
numeric score never yields a lower tier, and raising either the log
anomaly score or the raw error count never yields a lower tier. -/
theorem C8_severity_monotone :
    (∀ s t : ℝ, s ≤ t →
      (severity_from_score s).rank ≤ (severity_from_score t).rank) ∧
    (∀ (s s' : ℚ) (e e' : ℕ), s ≤ s' → e ≤ e' →
      (determine_severity s e).rank ≤ (determine_severity s' e').rank) := by
  constructor
  · intro s t h
    unfold severity_from_score
    split_ifs <;> first | decide | linarith
  · intro s s' e e' hs he
    unfold determine_severity
    by_cases h1 : 70 ≤ s' ∨ 100 < e'
    · rw [if_pos h1]
      split_ifs <;> decide
    · have h1' : ¬(70 ≤ s ∨ 100 < e) := by
        push_neg at h1 ⊢
        exact ⟨lt_of_le_of_lt hs h1.1, le_trans he h1.2⟩
      rw [if_neg h1, if_neg h1']
      by_cases h2 : 40 ≤ s' ∨ 20 < e'
      · rw [if_pos h2]
        split_ifs <;> decide
      · have h2' : ¬(40 ≤ s ∨ 20 < e) := by
          push_neg at h2 ⊢
          exact ⟨lt_of_le_of_lt hs h2.1, le_trans he h2.2⟩
        rw [if_neg h2, if_neg h2']
        by_cases h3 : 20 ≤ s' ∨ 5 < e'
        · rw [if_pos h3]
          split_ifs <;> decide
        · have h3' : ¬(20 ≤ s ∨ 5 < e) := by
            push_neg at h3 ⊢
            exact ⟨lt_of_le_of_lt hs h3.1, le_trans he h3.2⟩
          rw [if_neg h3, if_neg h3']

theorem sum_x_closed (n : ℕ) : sum_x n = (n : ℚ) * ((n : ℚ) - 1) / 2 := by
  induction n with
  | zero => simp [sum_x]
  | succ k ih =>
    unfold sum_x at ih ⊢
    rw [Finset.sum_range_succ, ih]
    push_cast
    ring

theorem sum_x2_closed (n : ℕ) :
    sum_x2 n = (n : ℚ) * ((n : ℚ) - 1) * (2 * (n : ℚ) - 1) / 6 := by
  induction n with
  | zero => simp [sum_x2]
  | succ k ih =>
    unfold sum_x2 at ih ⊢
    rw [Finset.sum_range_succ, ih]
    push_cast
    ring

theorem denom_pos (n : ℕ) (hn : 2 ≤ n) :
    0 < (n : ℚ) * sum_x2 n - (sum_x n) ^ 2 := by
  rw [sum_x_closed, sum_x2_closed]
  have h : (2 : ℚ) ≤ (n : ℚ) := by exact_mod_cast hn
  have key : (n : ℚ) * ((n : ℚ) * ((n : ℚ) - 1) * (2 * (n : ℚ) - 1) / 6)
      - ((n : ℚ) * ((n : ℚ) - 1) / 2) ^ 2 = (n : ℚ)^2 * ((n : ℚ)^2 - 1) / 12 := by
    ring
  rw [key]
  nlinarith

theorem residual_sum_eq_zero (vs : List ℚ) (hn : 1 ≤ vs.length) :
    ∑ i ∈ Finset.range vs.length,
      (vs.getD i 0 - (polyfit_slope vs * (i : ℚ) + polyfit_intercept vs)) = 0 := by
  have hn0 : ((vs.length : ℚ)) ≠ 0 := by
    have h1 : (1 : ℚ) ≤ ((vs.length : ℚ)) := by exact_mod_cast hn
    linarith
  have h1 : ∑ i ∈ Finset.range vs.length,
      (vs.getD i 0 - (polyfit_slope vs * (i : ℚ) + polyfit_intercept vs))
      = sum_y vs - (polyfit_slope vs * sum_x vs.length
          + (vs.length : ℚ) * polyfit_intercept vs) := by
    rw [Finset.sum_sub_distrib, Finset.sum_add_distrib, ← Finset.mul_sum, Finset.sum_const,
      Finset.card_range, nsmul_eq_mul]
    unfold sum_y sum_x
    ring
  rw [h1]
  unfold polyfit_intercept
  field_simp

theorem residual_dot_x_eq_zero (vs : List ℚ) (hn : 2 ≤ vs.length) :
    ∑ i ∈ Finset.range vs.length,
      (vs.getD i 0 - (polyfit_slope vs * (i : ℚ) + polyfit_intercept vs)) * (i : ℚ) = 0 := by
  have hn0 : ((vs.length : ℚ)) ≠ 0 := by
    have h1 : (2 : ℚ) ≤ ((vs.length : ℚ)) := by exact_mod_cast hn
    linarith
  have hD : (vs.length : ℚ) * sum_x2 vs.length - (sum_x vs.length) ^ 2 ≠ 0 :=
    (denom_pos vs.length hn).ne'
  have h1 : ∑ i ∈ Finset.range vs.length,
      (vs.getD i 0 - (polyfit_slope vs * (i : ℚ) + polyfit_intercept vs)) * (i : ℚ)
      = sum_xy vs - (polyfit_slope vs * sum_x2 vs.length
          + polyfit_intercept vs * sum_x vs.length) := by
    have hpt : ∀ i ∈ Finset.range vs.length,
        (vs.getD i 0 - (polyfit_slope vs * (i : ℚ) + polyfit_intercept vs)) * (i : ℚ)
          = (i : ℚ) * vs.getD i 0 - polyfit_slope vs * (i : ℚ) ^ 2
            - polyfit_intercept vs * (i : ℚ) := fun i _ => by ring
    rw [Finset.sum_congr rfl hpt, Finset.sum_sub_distrib, Finset.sum_sub_distrib,
      ← Finset.mul_sum, ← Finset.mul_sum]
    unfold sum_xy sum_x2 sum_x
    ring
  rw [h1]
  unfold polyfit_intercept polyfit_slope
  field_simp
  ring

/-- C6: the trend estimator returns stable on fewer than three values;
on three or more values it classifies via the ordinary least-squares
slope (proved optimal for the squared error over index positions) and
the relative change |slope| / (mean + 0.001): increasing for relative
change above 0.1 with positive slope, decreasing for relative change
above 0.1 with nonpositive slope, stable otherwise. -/
theorem C6_trend_estimator :
    (∀ vs : List ℚ, vs.length < 3 → analyze_trend vs = "stable") ∧
    (∀ vs : List ℚ, 3 ≤ vs.length →
      (∀ m b : ℚ, sq_error vs (polyfit_slope vs) (polyfit_intercept vs) ≤ sq_error vs m b) ∧
      (1/10 < relative_change vs → 0 < polyfit_slope vs →
        analyze_trend vs = "increasing") ∧
      (1/10 < relative_change vs → polyfit_slope vs ≤ 0 →
        analyze_trend vs = "decreasing") ∧
      (relative_change vs ≤ 1/10 → analyze_trend vs = "stable")) := by
  constructor
  · intro vs h
    unfold analyze_trend
    rw [if_pos h]
  · intro vs hn
    have hlt : ¬(vs.length < 3) := by omega
    refine ⟨?_, ?_, ?_, ?_⟩
    · intro m b
      have hNE1 := residual_sum_eq_zero vs (by omega)
      have hNE2 := residual_dot_x_eq_zero vs (by omega)
      have hexp : sq_error vs m b = sq_error vs (polyfit_slope vs) (polyfit_intercept vs)
          + (2 * (polyfit_slope vs - m)) * (∑ i ∈ Finset.range vs.length,
              (vs.getD i 0 - (polyfit_slope vs * (i : ℚ) + polyfit_intercept vs)) * (i : ℚ))
          + (2 * (polyfit_intercept vs - b)) * (∑ i ∈ Finset.range vs.length,
              (vs.getD i 0 - (polyfit_slope vs * (i : ℚ) + polyfit_intercept vs)))
          + ∑ i ∈ Finset.range vs.length,
              ((polyfit_slope vs - m) * (i : ℚ) + (polyfit_intercept vs - b)) ^ 2 := by
        unfold sq_error
        rw [Finset.mul_sum, Finset.mul_sum, ← Finset.sum_add_distrib,
          ← Finset.sum_add_distrib, ← Finset.sum_add_distrib]
        apply Finset.sum_congr rfl
        intro i _
        ring
      have hnn : 0 ≤ ∑ i ∈ Finset.range vs.length,
          ((polyfit_slope vs - m) * (i : ℚ) + (polyfit_intercept vs - b)) ^ 2 :=
        Finset.sum_nonneg (fun i _ => sq_nonneg _)
      rw [hexp, hNE1, hNE2]
      simp only [mul_zero, add_zero]
      linarith
    · intro hrc hsl
      unfold analyze_trend
      rw [if_neg hlt, if_pos hrc, if_pos hsl]
    · intro hrc hsl
      unfold analyze_trend
      rw [if_neg hlt, if_pos hrc, if_neg (not_lt.mpr hsl)]
    · intro hrc
      unfold analyze_trend
      rw [if_neg hlt, if_neg (not_lt.mpr hrc)]

/-- Witness for C6 on concrete short, rising, falling and flat series. -/
theorem C6_trend_estimator_witness :
    analyze_trend [(5 : ℚ)] = "stable" ∧
    analyze_trend [(1 : ℚ), 2, 3] = "increasing" ∧
    analyze_trend [(3 : ℚ), 2, 1] = "decreasing" ∧
    analyze_trend [(5 : ℚ), 5, 5] = "stable" ∧
    sq_error [(1 : ℚ), 2, 3] (polyfit_slope [(1 : ℚ), 2, 3])
      (polyfit_intercept [(1 : ℚ), 2, 3]) ≤ sq_error [(1 : ℚ), 2, 3] 0 0 :=
  ⟨C6_trend_estimator.1 [(5 : ℚ)] (by decide),
   (C6_trend_estimator.2 [(1 : ℚ), 2, 3] (by decide)).2.1
     (by norm_num [relative_change, polyfit_slope, listMean, sum_xy, sum_x, sum_x2, sum_y,
       Finset.sum_range_succ])
     (by norm_num [polyfit_slope, sum_xy, sum_x, sum_x2, sum_y, Finset.sum_range_succ]),
   (C6_trend_estimator.2 [(3 : ℚ), 2, 1] (by decide)).2.2.1
     (by norm_num [relative_change, polyfit_slope, listMean, sum_xy, sum_x, sum_x2, sum_y,
       Finset.sum_range_succ])
     (by norm_num [polyfit_slope, sum_xy, sum_x, sum_x2, sum_y, Finset.sum_range_succ]),
   (C6_trend_estimator.2 [(5 : ℚ), 5, 5] (by decide)).2.2.2
     (by norm_num [relative_change, polyfit_slope, listMean, sum_xy, sum_x, sum_x2, sum_y,
       Finset.sum_range_succ]),
   (C6_trend_estimator.2 [(1 : ℚ), 2, 3] (by decide)).1 0 0⟩

/-- Witness for C8 at concrete score and count pairs. -/
theorem C8_severity_monotone_witness :
    (severity_from_score 0.2).rank ≤ (severity_from_score 0.9).rank ∧
    (determine_severity 10 0).rank ≤ (determine_severity 45 6).rank :=
  ⟨C8_severity_monotone.1 0.2 0.9 (by norm_num),
   C8_severity_monotone.2 10 45 0 6 (by norm_num) (by norm_num)⟩

end AIOps
